import Mathlib

/-!
Shallow embedding of the selector widgets of this repository:

* `ChartSelect.tsx` — an asynchronous chart picker.  Its query builder
  (`loadChartOptions`), its by-identifier resolution effect (the `useEffect`
  keyed on `value`), its displayed-selection memo (`selectedValue`) and its
  change handler (`handleChange`) are embedded as pure functions below.
* `ColumnSelect` — the column picker variant; its scope-change reset
  (`useChangeEffect` on `datasetId` calling `resetColumnField`) is embedded.

Identifiers are JavaScript numbers, modelled as `Int`; `none` models
`null`/`undefined`, and JavaScript truthiness of a number is `≠ 0`.
-/

namespace ChartSelect

/-- The `ChartOption` interface: `{ value, label, viz_type? }`. -/
structure ChartOption where
  value : Int
  label : String
  viz_type : Option String
deriving DecidableEq, Repr

/-- A chart record as returned by the backend: `{ id, slice_name, viz_type }`. -/
structure Chart where
  id : Int
  slice_name : String
  viz_type : String
deriving DecidableEq, Repr

/-- A filter value is either a number or a string (the `value` field of a
Superset API filter object). -/
inductive FilterValue where
  | num (n : Int)
  | str (s : String)
deriving DecidableEq, Repr

/-- One `{ col, opr, value }` filter object pushed onto the `filters` array. -/
structure Filter where
  col : String
  opr : String
  value : FilterValue
deriving DecidableEq, Repr

/-- The rison-encoded query object built by `loadChartOptions`. -/
structure ChartQuery where
  filters : List Filter
  page : Nat
  page_size : Nat
  order_column : String
  order_direction : String
deriving DecidableEq, Repr

/-- The `filters` array built by `loadChartOptions`: a contains filter on
`slice_name` when `input` is truthy (non-empty), then, when `datasetId` is
truthy (present and non-zero), an equality filter on `datasource_id` and an
equality filter `datasource_type = table`. -/
def chartFilters (input : String) (datasetId : Option Int) : List Filter :=
  (if input = "" then [] else [Filter.mk "slice_name" "ct" (FilterValue.str input)]) ++
    (match datasetId with
     | none => []
     | some d =>
       if d = 0 then []
       else [Filter.mk "datasource_id" "eq" (FilterValue.num d),
             Filter.mk "datasource_type" "eq" (FilterValue.str "table")])

/-- The full query object `loadChartOptions` passes to `rison.encode`. -/
def chartQuery (input : String) (page pageSize : Nat) (datasetId : Option Int) :
    ChartQuery :=
  { filters := chartFilters input datasetId
    page := page
    page_size := pageSize
    order_column := "slice_name"
    order_direction := "asc" }

/-- The option built from one backend chart record:
`{ value: chart.id, label: ` the slice name followed by the viz type in
parentheses `, viz_type: chart.viz_type }`. -/
def mapChart (c : Chart) : ChartOption :=
  { value := c.id
    label := c.slice_name ++ " (" ++ c.viz_type ++ ")"
    viz_type := some c.viz_type }

/-- The list endpoint's JSON body: `{ count, result }`. -/
structure ListResponse where
  count : Nat
  result : List Chart
deriving DecidableEq, Repr

/-- What `loadChartOptions` returns to the select: `{ data, totalCount }`. -/
structure LoadResult where
  data : List ChartOption
  totalCount : Nat
deriving DecidableEq, Repr

/-- The response mapping in `loadChartOptions`: map every record of
`response.json.result` through `mapChart` and take `totalCount` from
`response.json.count`. -/
def mapListResponse (resp : ListResponse) : LoadResult :=
  { data := resp.result.map mapChart
    totalCount := resp.count }

/-- The component's local state: the `selectedChart` and `isLoadingSelected`
`useState` hooks. -/
structure CState where
  selectedChart : Option ChartOption
  isLoadingSelected : Bool
deriving DecidableEq, Repr

/-- The `useEffect` keyed on `value`.  Returns the state after the synchronous
part of the effect body together with the identifier a by-identifier fetch was
issued for (`none` when no fetch is issued):

* `!value` (null, undefined or `0`) → clear `selectedChart`, no fetch;
* `selectedChart` already holds an option whose `value` equals the prop →
  return early, no fetch, state unchanged;
* otherwise set `isLoadingSelected` and issue the fetch for `value`. -/
def valueEffect (value : Option Int) (s : CState) : CState × Option Int :=
  match value with
  | none => ({ s with selectedChart := none }, none)
  | some v =>
    if v = 0 then ({ s with selectedChart := none }, none)
    else
      match s.selectedChart with
      | some c =>
        if c.value = v then (s, none)
        else ({ s with isLoadingSelected := true }, some v)
      | none => ({ s with isLoadingSelected := true }, some v)

/-- The fetch `.then` handler followed by `.finally`: store the option built
from the response record and stop loading.  It inspects neither the current
state nor the identifier the fetch was issued for. -/
def fetchSuccess (chart : Chart) : CState → CState :=
  fun _ => { selectedChart := some (mapChart chart), isLoadingSelected := false }

/-- The fetch `.catch` handler followed by `.finally`: store the fallback
option built from the identifier captured by the closure (the identifier the
fetch was issued for) and stop loading. -/
def fetchFailure (issuedFor : Int) : CState → CState :=
  fun _ =>
    { selectedChart := some { value := issuedFor
                              label := "Chart " ++ toString issuedFor
                              viz_type := none }
      isLoadingSelected := false }

/-- The `selectedValue` memo: `undefined` when `value` is falsy, a
`Loading...` placeholder while the resolution fetch is in flight or when no
option is stored yet, otherwise the stored `selectedChart`. -/
def selectedValue (value : Option Int) (s : CState) : Option ChartOption :=
  match value with
  | none => none
  | some v =>
    if v = 0 then none
    else if s.isLoadingSelected then some { value := v, label := "Loading...", viz_type := none }
    else
      match s.selectedChart with
      | some c => some c
      | none => some { value := v, label := "Loading...", viz_type := none }

/-- The spec's `SelectionState`: `Empty`, `Resolving` (identifier known,
label still the placeholder) or `Resolved` (a concrete option displayed). -/
inductive SelectionState where
  | Empty : SelectionState
  | Resolving (v : Int) : SelectionState
  | Resolved (c : ChartOption) : SelectionState
deriving DecidableEq, Repr

/-- Abstraction of the displayed selection (the `selectedValue` memo) into the
spec's `SelectionState`: falsy `value` is `Empty`, the `Loading...` placeholder
cases are `Resolving`, a stored `selectedChart` is `Resolved`. -/
def selectionState (value : Option Int) (s : CState) : SelectionState :=
  match value with
  | none => SelectionState.Empty
  | some v =>
    if v = 0 then SelectionState.Empty
    else if s.isLoadingSelected then SelectionState.Resolving v
    else
      match s.selectedChart with
      | some c => SelectionState.Resolved c
      | none => SelectionState.Resolving v

/-- The shapes `handleChange` can receive from the select: `null`/`undefined`,
an object with a `value` field, or a primitive identifier. -/
inductive IncomingValue where
  | nullish : IncomingValue
  | obj (o : ChartOption) : IncomingValue
  | prim (n : Int) : IncomingValue
deriving DecidableEq, Repr

/-- The argument `handleChange` passes to `onChange`: `null` for
`null`/`undefined`, the object's `value` field for an object, the value itself
otherwise. -/
def handleChange : IncomingValue → Option Int
  | IncomingValue.nullish => none
  | IncomingValue.obj o => some o.value
  | IncomingValue.prim n => some n

/-- The list of `onChange` invocations one call of `handleChange` performs:
each branch of the handler calls `onChange` exactly once. -/
def handleChangeCalls : IncomingValue → List (Option Int)
  | IncomingValue.nullish => [none]
  | IncomingValue.obj o => [some o.value]
  | IncomingValue.prim n => [some n]

/-- Initial component state: both `useState` hooks start empty/false. -/
def s0 : CState := { selectedChart := none, isLoadingSelected := false }

/-- A concrete backend chart record with id 1. -/
def chart1 : Chart := { id := 1, slice_name := "Chart One", viz_type := "table" }

/-- A concrete backend chart record with id 2. -/
def chart2 : Chart := { id := 2, slice_name := "Chart Two", viz_type := "bar" }

/-- The mock list response of the end-to-end scenario:
`{count: 2, result: [{id: 1, ...}, {id: 2, ...}]}`. -/
def testResponse : ListResponse :=
  { count := 2
    result := [Chart.mk 1 "Test Chart 1" "table", Chart.mk 2 "Test Chart 2" "bar"] }

end ChartSelect

namespace ColumnSelect

/-- The `setFields` payload of `resetColumnField`: the column form field is
set to `value: null, touched: false`. -/
structure FieldUpdate where
  touched : Bool
  value : Option String
deriving DecidableEq, Repr

/-- `resetColumnField`: `form.setFields` with `touched: false, value: null`. -/
def resetColumnField : FieldUpdate := { touched := false, value := none }

/-- The `useChangeEffect` callback on `datasetId`: when the previous scope is
non-null and differs from the current one, the column field is reset; the
result is the field update performed, `none` when nothing happens. -/
def onDatasetIdChange (previous current : Option Int) : Option FieldUpdate :=
  match previous with
  | none => none
  | some p => if some p = current then none else some resetColumnField

end ColumnSelect

open ChartSelect ColumnSelect

/-- C1 (counterexample): fetch A is issued for identifier 1, then fetch B for
identifier 2; B resolves first and the selection becomes Resolved for chart 2;
when A's response arrives late, the success handler overwrites the selection
with chart 1 — the state does not remain Resolved for identifier 2, so the
claimed pending-identifier guard does not exist in the code. -/
theorem c1_counterexample :
    (valueEffect (some 1) s0).2 = some 1 ∧
    (valueEffect (some 2) (valueEffect (some 1) s0).1).2 = some 2 ∧
    selectionState (some 2)
        (fetchSuccess chart2 (valueEffect (some 2) (valueEffect (some 1) s0).1).1) =
      SelectionState.Resolved (mapChart chart2) ∧
    (mapChart chart2).value = 2 ∧
    selectionState (some 2)
        (fetchSuccess chart1
          (fetchSuccess chart2 (valueEffect (some 2) (valueEffect (some 1) s0).1).1)) =
      SelectionState.Resolved (mapChart chart1) ∧
    (mapChart chart1).value = 1 := by
  decide

/-- C1 (amended): a by-identifier completion mutates the selection state
unconditionally — the success handler stores the fetched chart regardless of
which identifier the fetch was issued for or what the current state is, so a
late response for a stale identifier overwrites the newer Resolved state. -/
theorem c1_late_completion_overwrites (late prior : Chart) (s : CState) :
    fetchSuccess late (fetchSuccess prior s) =
      { selectedChart := some (mapChart late), isLoadingSelected := false } :=
  rfl

/-- C2: when the selection state is Resolved with identifier v and the value
effect runs again with the same v, no fetch is issued and the component state
is unchanged. -/
theorem c2_resolved_noop (v : Int) (c : ChartOption) (s : CState)
    (hres : selectionState (some v) s = SelectionState.Resolved c)
    (hval : c.value = v) :
    valueEffect (some v) s = (s, none) := by
  by_cases hv : v = 0
  · simp [selectionState, hv] at hres
  · cases hload : s.isLoadingSelected with
    | true => simp [selectionState, hv, hload] at hres
    | false =>
      cases hsel : s.selectedChart with
      | none => simp [selectionState, hv, hload, hsel] at hres
      | some c' =>
        have hc : c' = c := by
          simpa [selectionState, hv, hload, hsel] using hres
        simp [valueEffect, hv, hsel, hc, hval]

/-- Witness for C2: identifier 7 with its option already resolved. -/
theorem c2_resolved_noop_witness :
    (selectionState (some 7)
        (CState.mk (some (ChartOption.mk 7 "Seven (bar)" (some "bar"))) false) =
      SelectionState.Resolved (ChartOption.mk 7 "Seven (bar)" (some "bar")) ∧
     (ChartOption.mk 7 "Seven (bar)" (some "bar")).value = 7) ∧
    valueEffect (some 7)
        (CState.mk (some (ChartOption.mk 7 "Seven (bar)" (some "bar"))) false) =
      (CState.mk (some (ChartOption.mk 7 "Seven (bar)" (some "bar"))) false, none) :=
  ⟨⟨by decide, by decide⟩,
    c2_resolved_noop 7 (ChartOption.mk 7 "Seven (bar)" (some "bar"))
      (CState.mk (some (ChartOption.mk 7 "Seven (bar)" (some "bar"))) false)
      (by decide) (by decide)⟩

/-- C3: when the by-identifier fetch for a pending identifier v fails, the
failure handler stores a fallback option whose value is exactly v and whose
label contains the string form of v, and the resulting selection state is
Resolved (not stuck loading). -/
theorem c3_failure_fallback (v : Int) (s : CState) (hv : v ≠ 0) :
    ∃ c : ChartOption,
      fetchFailure v s = CState.mk (some c) false ∧
      c.value = v ∧
      (∃ pre post : String, c.label = pre ++ toString v ++ post) ∧
      selectionState (some v) (fetchFailure v s) = SelectionState.Resolved c := by
  refine ⟨{ value := v, label := "Chart " ++ toString v, viz_type := none }, rfl, rfl,
    ⟨"Chart ", "", ?_⟩, ?_⟩
  · rw [String.append_empty]
  · simp [selectionState, fetchFailure, hv]

/-- Witness for C3: failure of the fetch issued for identifier 42. -/
theorem c3_failure_fallback_witness :
    (42 : Int) ≠ 0 ∧
    ∃ c : ChartOption,
      fetchFailure 42 s0 = CState.mk (some c) false ∧
      c.value = 42 ∧
      (∃ pre post : String, c.label = pre ++ toString (42 : Int) ++ post) ∧
      selectionState (some 42) (fetchFailure 42 s0) = SelectionState.Resolved c :=
  ⟨by decide, c3_failure_fallback 42 s0 (by decide)⟩

/-- C4 (counterexample): with search text "Chart" and scope filter 123 the
issued filter sequence is not just the text-contains predicate plus the
datasource_id equality — the code also appends an equality predicate
`datasource_type = table` (the "includes eq 123" part of the claim holds). -/
theorem c4_counterexample :
    chartFilters "Chart" (some 123) ≠
      [ChartSelect.Filter.mk "slice_name" "ct" (FilterValue.str "Chart"),
       ChartSelect.Filter.mk "datasource_id" "eq" (FilterValue.num 123)] ∧
    ChartSelect.Filter.mk "datasource_id" "eq" (FilterValue.num 123) ∈
      chartFilters "Chart" (some 123) := by
  decide

/-- C4 (amended): with the scope filter set to a truthy d, the filter sequence
is the AND-composition of the text-contains predicate on slice_name (when the
search text is non-empty), an equality predicate `datasource_id = d`, and an
equality predicate `datasource_type = table`; in particular it includes the
scoping equality predicate in addition to any active search-text predicate. -/
theorem c4_scoped_query_composition (input : String) (d : Int) (hd : d ≠ 0) :
    chartFilters input (some d) =
      (if input = "" then []
       else [ChartSelect.Filter.mk "slice_name" "ct" (FilterValue.str input)]) ++
        [ChartSelect.Filter.mk "datasource_id" "eq" (FilterValue.num d),
         ChartSelect.Filter.mk "datasource_type" "eq" (FilterValue.str "table")] ∧
    ChartSelect.Filter.mk "datasource_id" "eq" (FilterValue.num d) ∈ chartFilters input (some d) ∧
    ChartSelect.Filter.mk "datasource_type" "eq" (FilterValue.str "table") ∈
      chartFilters input (some d) ∧
    (input ≠ "" →
      ChartSelect.Filter.mk "slice_name" "ct" (FilterValue.str input) ∈
        chartFilters input (some d)) := by
  have heq : chartFilters input (some d) =
      (if input = "" then []
       else [ChartSelect.Filter.mk "slice_name" "ct" (FilterValue.str input)]) ++
        [ChartSelect.Filter.mk "datasource_id" "eq" (FilterValue.num d),
         ChartSelect.Filter.mk "datasource_type" "eq" (FilterValue.str "table")] := by
    simp [chartFilters, hd]
  refine ⟨heq, ?_, ?_, fun hin => ?_⟩
  · rw [heq]; simp
  · rw [heq]; simp
  · rw [heq]; simp [hin]

/-- Witness for C4 (amended): search text "Chart" and scope value 123. -/
theorem c4_scoped_query_composition_witness :
    (123 : Int) ≠ 0 ∧
    (chartFilters "Chart" (some 123) =
      (if "Chart" = "" then []
       else [ChartSelect.Filter.mk "slice_name" "ct" (FilterValue.str "Chart")]) ++
        [ChartSelect.Filter.mk "datasource_id" "eq" (FilterValue.num 123),
         ChartSelect.Filter.mk "datasource_type" "eq" (FilterValue.str "table")] ∧
    ChartSelect.Filter.mk "datasource_id" "eq" (FilterValue.num 123) ∈
      chartFilters "Chart" (some 123) ∧
    ChartSelect.Filter.mk "datasource_type" "eq" (FilterValue.str "table") ∈
      chartFilters "Chart" (some 123) ∧
    ("Chart" ≠ "" →
      ChartSelect.Filter.mk "slice_name" "ct" (FilterValue.str "Chart") ∈
        chartFilters "Chart" (some 123))) :=
  ⟨by decide, c4_scoped_query_composition "Chart" 123 (by decide)⟩

/-- C5: when the external value becomes null, the effect clears the stored
option without issuing a fetch and the selection state is Empty. -/
theorem c5_null_clears (s : CState) :
    valueEffect none s = ({ s with selectedChart := none }, none) ∧
    selectionState none { s with selectedChart := none } = SelectionState.Empty :=
  ⟨rfl, rfl⟩

/-- C6: every list query built by the selector orders by slice_name
ascending. -/
theorem c6_ordering (input : String) (page pageSize : Nat) (datasetId : Option Int) :
    (chartQuery input page pageSize datasetId).order_column = "slice_name" ∧
    (chartQuery input page pageSize datasetId).order_direction = "asc" :=
  ⟨rfl, rfl⟩

/-- C7: the mock response maps to exactly the two options labelled
"Test Chart 1 (table)" and "Test Chart 2 (bar)" with values 1 and 2 and
totalCount 2, and picking the first option makes the change handler call
onChange with identifier 1. -/
theorem c7_end_to_end :
    mapListResponse testResponse =
      { data := [ChartOption.mk 1 "Test Chart 1 (table)" (some "table"),
                 ChartOption.mk 2 "Test Chart 2 (bar)" (some "bar")]
        totalCount := 2 } ∧
    (mapListResponse testResponse).data.map (fun o => o.label) =
      ["Test Chart 1 (table)", "Test Chart 2 (bar)"] ∧
    handleChange
        (IncomingValue.obj (ChartOption.mk 1 "Test Chart 1 (table)" (some "table"))) =
      some 1 := by
  decide

/-- C8: a clear action reaches the change handler as null/undefined, which
performs exactly one onChange call with null; the parent then sets the value
prop to null, upon which the effect clears the stored option without a fetch
and the selection state is Empty. -/
theorem c8_clear_semantics (s : CState) :
    handleChangeCalls IncomingValue.nullish = [none] ∧
    valueEffect none s = ({ s with selectedChart := none }, none) ∧
    selectionState none (valueEffect none s).1 = SelectionState.Empty :=
  ⟨rfl, rfl, rfl⟩

/-- C9: in ColumnSelect, whenever datasetId changes from a non-null previous
value to a different value, the column form field is reset to value null,
untouched. -/
theorem c9_scope_change_reset (p : Int) (current : Option Int)
    (h : some p ≠ current) :
    onDatasetIdChange (some p) current =
      some { touched := false, value := none } := by
  simp [onDatasetIdChange, resetColumnField, h]

/-- Witness for C9: scope changes from 123 to 456. -/
theorem c9_scope_change_reset_witness :
    (some (123 : Int) ≠ some (456 : Int)) ∧
    onDatasetIdChange (some 123) (some 456) =
      some { touched := false, value := none } :=
  ⟨by decide, c9_scope_change_reset 123 (some 456) (by decide)⟩

/-- C10: the external value 0 is falsy, so the effect clears the stored option
and issues no fetch, the displayed selected value is undefined, and the
selection state is Empty — an entity with identifier 0 is never shown as
selected. -/
theorem c10_zero_treated_as_empty (s : CState) :
    valueEffect (some 0) s = ({ s with selectedChart := none }, none) ∧
    selectedValue (some 0) s = none ∧
    selectionState (some 0) s = SelectionState.Empty := by
  refine ⟨?_, ?_, ?_⟩ <;> simp [valueEffect, selectedValue, selectionState]
